import Mathlib

/-!
# Atmos food-ordering backend: order assembly and payment reconciliation

Shallow embedding of the order-assembly / payment-reconciliation core of the
`atmosfoodin` repository:

* `src/config/locations.ts` — the delivery fee calculator (`calculateFeeFromDistance`,
  `PRICING`).
* `src/controllers/orderController.ts` — manual-flow `createOrder` and `verifyPayment`.
* the gateway-flow controller (unnamed source file, `createOrder` + `paystackWebhook`).
* `src/controllers/webhookController.ts` — `handlePaystackWebhook`,
  `handleSuccessfulPayment`, `handleFailedPayment`.

Prices, amounts and distances are JS numbers and are modelled as `ℚ`; quantities are
`Nat`; JS strings are `String`; optional / possibly-`undefined` fields are `Option`.
Database documents live in an explicit store (`List Order`); every stateful controller
is a function from the store (and its external inputs: catalog lookup results, random
values, clock values, the HMAC function) to the new store plus its response.
-/

namespace Atmos

/-- `AppError` from `utils/errorHandler.ts`: message plus HTTP status code. -/
structure AppError where
  message : String
  statusCode : Nat
deriving Repr, DecidableEq

/-- `config/locations.ts`: the tiered pricing schedule record `PRICING`. -/
structure Pricing where
  BASE_FEE : ℚ
  BASE_KM : ℚ
  RATE_PER_KM : ℚ
deriving Repr, DecidableEq

/-- `config/locations.ts`: `PRICING = { BASE_FEE: 400, BASE_KM: 2, RATE_PER_KM: 200 }`
(the schedule at the cited lines; a second deployment schedule 600/3/100 exists in
history but is not the one the claims are stated over). -/
def PRICING : Pricing := ⟨400, 2, 200⟩

/-- `config/locations.ts` lines 22–25:

`if (distanceKm <= PRICING.BASE_KM) return PRICING.BASE_FEE;`
`return PRICING.BASE_FEE + Math.ceil(distanceKm - PRICING.BASE_KM) * PRICING.RATE_PER_KM;`
-/
def calculateFeeFromDistance (distanceKm : ℚ) : ℚ :=
  if distanceKm ≤ PRICING.BASE_KM then PRICING.BASE_FEE
  else PRICING.BASE_FEE + (⌈distanceKm - PRICING.BASE_KM⌉ : ℚ) * PRICING.RATE_PER_KM

/-- `validators/orderValidator.ts`: `deliveryMethod: z.enum(['delivery', 'pickup'])` —
validated input carries exactly one of the two literals. -/
inductive DeliveryMethod
  | delivery
  | pickup
deriving Repr, DecidableEq

/-- A catalog product as read by the bulk fetch in `createOrder`
(`models/Product.ts`: `_id`, `name`, `price` are the fields the controller uses). -/
structure Product where
  id : String
  name : String
  price : ℚ
deriving Repr, DecidableEq

/-- A protein add-on as read by the bulk fetch (`models/Protein.ts`). -/
structure Protein where
  id : String
  name : String
  price : ℚ
deriving Repr, DecidableEq

/-- `validators/orderValidator.ts`: one entry of `items` in `createOrderSchema`
(`product : string`, `quantity : number ≥ 1`, `proteins : string[] optional`). -/
structure CartItem where
  product : String
  quantity : Nat
  proteins : Option (List String)
deriving Repr, DecidableEq

/-- `validators/orderValidator.ts`: `CreateOrderInput`, the parse result of
`createOrderSchema` (fields the order controllers read). -/
structure CreateOrderInput where
  items : List CartItem
  customerName : String
  email : String
  phoneNumber : String
  address : String
  deliveryMethod : DeliveryMethod
  deliveryCoordinates : Option (ℚ × ℚ)
  deliveryDistance : Option ℚ
  verificationCode : Option String
deriving Repr, DecidableEq

/-- One element of `populatedItems` in `createOrder`
(`models/Order.ts` item sub-schema: product ref, name/price snapshot, quantity,
resolved protein refs and name snapshots). -/
structure OrderItem where
  product : String
  productName : String
  quantity : Nat
  price : ℚ
  proteins : List String
  proteinNames : List String
deriving Repr, DecidableEq

/-- `models/Order.ts`: the `paymentDetails` snapshot written by the webhook handlers
(the `customer` / `metadata` mixed blobs are opaque and not modelled). -/
structure PaymentDetails where
  method : String
  amount : ℚ
  paidAt : Option ℚ
  failedAt : Option ℚ
  reason : Option String
deriving Repr, DecidableEq

/-- `models/Order.ts`: an order document. `oid` is the storage `_id`. Statuses cross
the JS code as strings (the gateway webhook writes the literal `'confirmed'`), so they
are `String` here; fields a code path does not set are `none`. -/
structure Order where
  oid : String
  items : List OrderItem
  totalAmount : ℚ
  customerName : String
  email : String
  phoneNumber : String
  address : String
  deliveryMethod : DeliveryMethod
  deliveryCoordinates : Option (ℚ × ℚ)
  deliveryDistance : Option ℚ
  pickupCode : Option String
  deliveryCode : Option String
  status : String
  paymentStatus : String
  orderReference : Option String
  paymentReference : Option String
  paystackReference : Option String
  paidAt : Option ℚ
  receiptImage : Option String
  paymentMethod : Option String
  paymentDetails : Option PaymentDetails
deriving Repr, DecidableEq

/-- External inputs consumed by one `createOrder` run: the imported fee function,
the `Math.random()` draw used for code generation, the generated order reference
(`Date.now()` + random suffix), and the storage id the store assigns at save. -/
structure OrderDeps where
  feeFn : ℚ → ℚ
  rand : ℚ
  orderReference : String
  oid : String

/-- `Math.floor(1000 + Math.random() * 9000)` with `rand = Math.random()`. -/
def genCodeNum (rand : ℚ) : ℤ := ⌊(1000 : ℚ) + rand * 9000⌋

/-- `orderController.ts` lines 114–132: caller-supplied verification code used verbatim
when truthy (JS: `undefined` and `""` are falsy), otherwise a generated
`ATMOS-P-`/`ATMOS-D-` code; returns the `(pickupCode, deliveryCode)` string pair. -/
def verificationCodes (method : DeliveryMethod) (supplied : Option String) (rand : ℚ) :
    String × String :=
  let c := supplied.getD ""
  if c ≠ "" then
    match method with
    | .pickup => (c, "")
    | .delivery => ("", c)
  else
    match method with
    | .pickup => ("ATMOS-P-" ++ toString (genCodeNum rand), "")
    | .delivery => ("", "ATMOS-D-" ++ toString (genCodeNum rand))

/-- `orderController.ts` lines 63–96: the pricing loop. For each cart item the product
must resolve (`404` otherwise); proteins resolve through `proteinMap`, silently skipping
misses; `quantity || 1` maps the falsy `0` to `1`; accumulates
`totalAmount += itemPrice * quantity` and pushes the populated line item. -/
def buildItems (prod : String → Option Product) (prot : String → Option Protein) :
    List CartItem → Except AppError (List OrderItem × ℚ)
  | [] => Except.ok ([], 0)
  | item :: rest =>
    match prod item.product with
    | none => Except.error ⟨"Product " ++ item.product ++ " not found", 404⟩
    | some p =>
      let found := (item.proteins.getD []).filterMap prot
      let itemPrice := p.price + (found.map Protein.price).sum
      let quantity := if item.quantity = 0 then 1 else item.quantity
      match buildItems prod prot rest with
      | Except.error e => Except.error e
      | Except.ok (restItems, restTotal) =>
        Except.ok
          (⟨item.product, p.name, quantity, itemPrice,
              found.map Protein.id, found.map Protein.name⟩ :: restItems,
            itemPrice * (quantity : ℚ) + restTotal)

/-- `orderController.ts` lines 99–103: `deliveryFee` is computed (and added) only when
`deliveryMethod === 'delivery' && validatedData.deliveryDistance` — JS truthiness makes
an absent or zero distance skip the fee calculator entirely. -/
def orderDeliveryFee (deps : OrderDeps) (input : CreateOrderInput) : ℚ :=
  match input.deliveryMethod, input.deliveryDistance with
  | DeliveryMethod.delivery, some d => if d ≠ 0 then deps.feeFn d else 0
  | _, _ => 0

/-- `orderController.ts` lines 11–155 (manual flow): validation, pricing loop, delivery
fee, verification codes, and the assembled order document (`status: 'pending'`,
`paymentStatus: 'pending'`, `paymentReference = 'MANUAL-' + orderReference`, address
forced to the pickup literal for pickup orders). Persistence is modelled separately by
`createOrderEndpoint`. -/
def createOrder (deps : OrderDeps) (prod : String → Option Product)
    (prot : String → Option Protein) (input : CreateOrderInput) : Except AppError Order :=
  if input.items.isEmpty then Except.error ⟨"Order items are required", 400⟩
  else
    match buildItems prod prot input.items with
    | Except.error e => Except.error e
    | Except.ok (populatedItems, subtotal) =>
      let deliveryFee := orderDeliveryFee deps input
      let totalAmount := subtotal + deliveryFee
      let codes := verificationCodes input.deliveryMethod input.verificationCode deps.rand
      Except.ok
        { oid := deps.oid
          items := populatedItems
          totalAmount := totalAmount
          customerName := input.customerName
          email := input.email
          phoneNumber := input.phoneNumber
          address :=
            if input.deliveryMethod = DeliveryMethod.pickup then "PICKUP @ ATMOS KITCHEN"
            else input.address
          deliveryMethod := input.deliveryMethod
          deliveryCoordinates := input.deliveryCoordinates
          deliveryDistance := input.deliveryDistance
          pickupCode := if codes.1 = "" then none else some codes.1
          deliveryCode := if codes.2 = "" then none else some codes.2
          status := "pending"
          paymentStatus := "pending"
          orderReference := some deps.orderReference
          paymentReference := some ("MANUAL-" ++ deps.orderReference)
          paystackReference := none
          paidAt := none
          receiptImage := none
          paymentMethod := some "manual"
          paymentDetails := none }

/-- The manual-flow endpoint seen from the store: `newOrder.save()` appends the
assembled order; any error thrown earlier reaches `asyncHandler` before any write. -/
def createOrderEndpoint (deps : OrderDeps) (prod : String → Option Product)
    (prot : String → Option Protein) (input : CreateOrderInput) (store : List Order) :
    List Order × Except AppError Order :=
  match createOrder deps prod prot input with
  | Except.error e => (store, Except.error e)
  | Except.ok o => (store ++ [o], Except.ok o)

/-- Decidable equality of controller results, for concrete-run witnesses. -/
instance {e a : Type} [DecidableEq e] [DecidableEq a] : DecidableEq (Except e a) :=
  fun x y =>
    match x, y with
    | Except.error u, Except.error v =>
      if h : u = v then isTrue (by rw [h])
      else isFalse (by intro hh; cases hh; exact h rfl)
    | Except.error _, Except.ok _ => isFalse (by intro hh; cases hh)
    | Except.ok _, Except.error _ => isFalse (by intro hh; cases hh)
    | Except.ok u, Except.ok v =>
      if h : u = v then isTrue (by rw [h])
      else isFalse (by intro hh; cases hh; exact h rfl)

/-- Scenario A catalog: one product, `rice`, priced 4500. -/
def scenarioAProd : String → Option Product :=
  fun s => if s = "rice" then some ⟨"rice", "Jollof Rice", 4500⟩ else none

/-- Scenario A proteins: one add-on, `chicken`, priced 3500. -/
def scenarioAProt : String → Option Protein :=
  fun s => if s = "chicken" then some ⟨"chicken", "Grilled Chicken", 3500⟩ else none

/-- Scenario A environment: real fee calculator, fixed reference and id. -/
def scenarioADeps : OrderDeps := ⟨calculateFeeFromDistance, 0, "ATMOS-1-ref", "oid-1"⟩

/-- Scenario A: a pickup cart of 2 × rice with the chicken add-on. -/
def scenarioAInput : CreateOrderInput :=
  { items := [⟨"rice", 2, some ["chicken"]⟩]
    customerName := "Ada Obi"
    email := "ada-at-example"
    phoneNumber := "0800000000"
    address := "12 Lagos Road"
    deliveryMethod := DeliveryMethod.pickup
    deliveryCoordinates := none
    deliveryDistance := none
    verificationCode := some "CODE-77" }

/-- The order `createOrder` assembles from Scenario A. -/
def scenarioAOrder : Order :=
  { oid := "oid-1"
    items := [⟨"rice", "Jollof Rice", 2, 8000, ["chicken"], ["Grilled Chicken"]⟩]
    totalAmount := 16000
    customerName := "Ada Obi"
    email := "ada-at-example"
    phoneNumber := "0800000000"
    address := "PICKUP @ ATMOS KITCHEN"
    deliveryMethod := DeliveryMethod.pickup
    deliveryCoordinates := none
    deliveryDistance := none
    pickupCode := some "CODE-77"
    deliveryCode := none
    status := "pending"
    paymentStatus := "pending"
    orderReference := some "ATMOS-1-ref"
    paymentReference := some "MANUAL-ATMOS-1-ref"
    paystackReference := none
    paidAt := none
    receiptImage := none
    paymentMethod := some "manual"
    paymentDetails := none }

/-- Gateway flow (unnamed controller file) lines 113–125: the order-shaped payload
passed to `initializePayment` as the gateway session's metadata. It carries the fields
listed there — note it does not carry an order reference. -/
structure GatewayMetadata where
  items : List OrderItem
  totalAmount : ℚ
  customerName : String
  email : String
  phoneNumber : String
  address : String
  deliveryMethod : DeliveryMethod
  deliveryCoordinates : Option (ℚ × ℚ)
  deliveryDistance : Option ℚ
  pickupCode : Option String
  deliveryCode : Option String
deriving Repr, DecidableEq

/-- The gateway session data the adapter returns and the controller forwards:
`{ authorization_url, reference }` — the only fields in the HTTP response. -/
structure GatewaySession where
  authorization_url : String
  reference : String
deriving Repr, DecidableEq

/-- Gateway flow lines 13–125: the same validation / pricing / code pipeline as the
manual flow, assembled into the metadata payload for the gateway session (address
normalized to the pickup literal for pickup orders). -/
def assembleGatewayPayload (deps : OrderDeps) (prod : String → Option Product)
    (prot : String → Option Protein) (input : CreateOrderInput) :
    Except AppError GatewayMetadata :=
  if input.items.isEmpty then Except.error ⟨"Order items are required", 400⟩
  else
    match buildItems prod prot input.items with
    | Except.error e => Except.error e
    | Except.ok (populatedItems, subtotal) =>
      let totalAmount := subtotal + orderDeliveryFee deps input
      let codes := verificationCodes input.deliveryMethod input.verificationCode deps.rand
      Except.ok
        { items := populatedItems
          totalAmount := totalAmount
          customerName := input.customerName
          email := input.email
          phoneNumber := input.phoneNumber
          address :=
            if input.deliveryMethod = DeliveryMethod.pickup then "PICKUP @ ATMOS KITCHEN"
            else input.address
          deliveryMethod := input.deliveryMethod
          deliveryCoordinates := input.deliveryCoordinates
          deliveryDistance := input.deliveryDistance
          pickupCode := if codes.1 = "" then none else some codes.1
          deliveryCode := if codes.2 = "" then none else some codes.2 }

/-- Gateway flow `createOrder` lines 13–136: opens a gateway session
(`initializePayment(email, totalAmount, orderReference, metadata)`, modelled by the
adapter function `initPay`) and responds with only `authorization_url` and `reference`.
No store write occurs on this path ("order will be created after payment confirmation"),
so the store passes through unchanged. -/
def createOrderGateway (deps : OrderDeps)
    (initPay : String → ℚ → String → GatewayMetadata → GatewaySession)
    (prod : String → Option Product) (prot : String → Option Protein)
    (input : CreateOrderInput) (store : List Order) :
    List Order × Except AppError GatewaySession :=
  match assembleGatewayPayload deps prod prot input with
  | Except.error e => (store, Except.error e)
  | Except.ok md =>
    let paymentData := initPay input.email md.totalAmount deps.orderReference md
    (store, Except.ok ⟨paymentData.authorization_url, paymentData.reference⟩)

/-- Gateway flow webhook body: `event`, `data.reference`, and the decoded
`JSON.parse(event.data.metadata)` payload. -/
structure GatewayEvent where
  event : String
  reference : String
  metadata : GatewayMetadata
deriving Repr, DecidableEq

/-- Gateway flow lines 160–168: `new Order({ ...orderData, status: 'confirmed',
paymentStatus: 'success', paystackReference })`. The spread carries only the metadata
fields, so no order/payment reference is supplied; `oid` is the id the store assigns. -/
def orderFromMetadata (md : GatewayMetadata) (ref : String) (oid : String) : Order :=
  { oid := oid
    items := md.items
    totalAmount := md.totalAmount
    customerName := md.customerName
    email := md.email
    phoneNumber := md.phoneNumber
    address := md.address
    deliveryMethod := md.deliveryMethod
    deliveryCoordinates := md.deliveryCoordinates
    deliveryDistance := md.deliveryDistance
    pickupCode := md.pickupCode
    deliveryCode := md.deliveryCode
    status := "confirmed"
    paymentStatus := "success"
    orderReference := none
    paymentReference := none
    paystackReference := some ref
    paidAt := none
    receiptImage := none
    paymentMethod := none
    paymentDetails := none }

/-- Gateway flow `paystackWebhook` lines 138–205: HMAC signature check (the keyed hash
of the request body, modelled by the abstract `hmac` applied to the parsed body), then
on `charge.success` the order is created from the decoded metadata inside a transaction
and a "new order" message is dispatched; any other event falls through to the 200
response. The third component lists the dispatched messages. -/
def paystackWebhook (hmac : String → GatewayEvent → String) (secret sig : String)
    (ev : GatewayEvent) (oid : String) (store : List Order) :
    List Order × Except AppError String × List String :=
  if hmac secret ev ≠ sig then (store, Except.error ⟨"Invalid signature", 401⟩, [])
  else if ev.event = "charge.success" then
    (store ++ [orderFromMetadata ev.metadata ev.reference oid],
      Except.ok "Webhook Received", ["notifyNewOrder:" ++ ev.reference])
  else (store, Except.ok "Webhook Received", [])

/-- `webhookController.ts`: the `data` of a Paystack event — reference, amount,
`paid_at` timestamp, and the optional `gateway_response.message`. -/
structure PaystackEventData where
  reference : String
  amount : ℚ
  paid_at : ℚ
  gateway_response : Option String
deriving Repr, DecidableEq

/-- `webhookController.ts`: the parsed webhook body `{ event, data }`. -/
structure PaystackEvent where
  event : String
  data : PaystackEventData
deriving Repr, DecidableEq

/-- `webhookController.ts` lines 60–65 / 115–120: `Order.findOne({ $or:
[{ paystackReference: reference }, { _id: reference }] })`. -/
def findByRef (ref : String) (store : List Order) : Option Order :=
  store.find? (fun o => decide (o.paystackReference = some ref ∨ o.oid = ref))

/-- `orderController.ts` line 237: `Order.findById(orderId)`. -/
def findById (oid : String) (store : List Order) : Option Order :=
  store.find? (fun o => decide (o.oid = oid))

/-- `order.save()` on a fetched document: replace the document with the given id. -/
def updateById (oid : String) (o' : Order) (store : List Order) : List Order :=
  store.map (fun o => if o.oid = oid then o' else o)

/-- `webhookController.ts` lines 77–87: the field updates `handleSuccessfulPayment`
applies to a found, not-yet-successful order. -/
def successUpdate (order : Order) (ev : PaystackEventData) : Order :=
  { order with
    paymentStatus := "success"
    paidAt := some ev.paid_at
    paystackReference := some ev.reference
    paymentDetails := some ⟨"paystack", ev.amount, some ev.paid_at, none, none⟩ }

/-- `webhookController.ts` lines 127–135: the field updates `handleFailedPayment`
applies to any found order — note there is no check of the current payment status.
`now` is the `new Date()` stamp; the reason defaults to `'Payment failed'`. -/
def failedUpdate (order : Order) (ev : PaystackEventData) (now : ℚ) : Order :=
  { order with
    paymentStatus := "failed"
    paymentDetails :=
      some ⟨"paystack", ev.amount, none, some now, some (ev.gateway_response.getD "Payment failed")⟩ }

/-- `webhookController.ts` lines 53–105: look the order up by reference or id; if
absent, log and return; if already `success`, log and return (duplicate delivery);
otherwise apply `successUpdate`, save, and dispatch a payment notification. -/
def handleSuccessfulPayment (ev : PaystackEventData) (store : List Order) :
    List Order × List String :=
  match findByRef ev.reference store with
  | none => (store, [])
  | some order =>
    if order.paymentStatus = "success" then (store, [])
    else
      (updateById order.oid (successUpdate order ev) store, ["payment-success:" ++ ev.reference])

/-- `webhookController.ts` lines 108–147: look the order up the same way; if found,
apply `failedUpdate` unconditionally, save, and dispatch a payment notification. -/
def handleFailedPayment (ev : PaystackEventData) (now : ℚ) (store : List Order) :
    List Order × List String :=
  match findByRef ev.reference store with
  | none => (store, [])
  | some order =>
    (updateById order.oid (failedUpdate order ev now) store, ["payment-failed:" ++ ev.reference])

/-- `webhookController.ts` lines 7–50 `handlePaystackWebhook`: recompute the keyed hash
of the body and compare with the `x-paystack-signature` header; mismatch responds 401
and nothing further runs. Otherwise dispatch on the event kind (`transfer.*` handlers
only log) and respond 200. Result: new store, HTTP status, dispatched messages. -/
def handlePaystackWebhook (hmac : String → PaystackEvent → String) (secret sig : String)
    (now : ℚ) (ev : PaystackEvent) (store : List Order) :
    List Order × Nat × List String :=
  if hmac secret ev ≠ sig then (store, 401, [])
  else if ev.event = "charge.success" then
    let r := handleSuccessfulPayment ev.data store
    (r.1, 200, r.2)
  else if ev.event = "charge.failed" then
    let r := handleFailedPayment ev.data now store
    (r.1, 200, r.2)
  else (store, 200, [])

/-- `orderController.ts` lines 249–253: the field updates `verifyPayment` applies. -/
def verifiedUpdate (order : Order) (receiptImage : Option String) (now : ℚ) : Order :=
  { order with
    paymentStatus := "success"
    status := "preparing"
    paidAt := some now
    receiptImage := receiptImage }

/-- `orderController.ts` lines 230–285 `verifyPayment`: requires an order id (400),
finds the order (404), rejects an already-verified order with
`'Payment already verified'` (400) before any write, otherwise applies
`verifiedUpdate`, saves, and dispatches a notification. -/
def verifyPayment (orderId : Option String) (receiptImage : Option String) (now : ℚ)
    (store : List Order) : List Order × Except AppError Order × List String :=
  match orderId with
  | none => (store, Except.error ⟨"Order ID is required", 400⟩, [])
  | some oid =>
    match findById oid store with
    | none => (store, Except.error ⟨"Order not found", 404⟩, [])
    | some order =>
      if order.paymentStatus = "success" then
        (store, Except.error ⟨"Payment already verified", 400⟩, [])
      else
        let order' := verifiedUpdate order receiptImage now
        (updateById oid order' store, Except.ok order', ["verified:" ++ oid])

/-- Concrete gateway metadata for witness runs. -/
def mdG0 : GatewayMetadata :=
  ⟨[], 0, "Ada", "a-mail", "0800", "addr", DeliveryMethod.delivery, none, none, none,
    some "ATMOS-D-1234"⟩

/-- A concrete `charge.success` gateway event. -/
def evG0 : GatewayEvent := ⟨"charge.success", "ref0", mdG0⟩

/-- A concrete non-charge gateway event. -/
def evG1 : GatewayEvent := ⟨"transfer.success", "ref1", mdG0⟩

/-- A concrete HMAC function for witnesses (constant hash). -/
def hmacG0 : String → GatewayEvent → String := fun _ _ => "sig0"

/-- A concrete gateway adapter returning a fixed session. -/
def initPayFixed : String → ℚ → String → GatewayMetadata → GatewaySession :=
  fun _ _ _ _ => ⟨"url0", "payref0"⟩

/-- An empty-catalog product lookup. -/
def prodNone : String → Option Product := fun _ => none

/-- An empty-catalog protein lookup. -/
def protNone : String → Option Protein := fun _ => none

/-- A minimal delivery-method cart input for gateway witnesses. -/
def inputG0 : CreateOrderInput :=
  ⟨[], "Ada", "a-mail", "0800", "addr", DeliveryMethod.delivery, none, none, none⟩

/-- First delivery of the duplicated `charge.success` event, on an empty store. -/
def dupRun1 : List Order × Except AppError String × List String :=
  paystackWebhook hmacG0 "sk" "sig0" evG0 "oidB" []

/-- Second delivery of the identical event, on the store the first one produced. -/
def dupRun2 : List Order × Except AppError String × List String :=
  paystackWebhook hmacG0 "sk" "sig0" evG0 "oidA" dupRun1.1

/-- An already-successful persisted order (gateway reference `psr`). -/
def orderS0 : Order :=
  { oid := "oidS"
    items := []
    totalAmount := 0
    customerName := "Ada"
    email := "a-mail"
    phoneNumber := "0800"
    address := "addr"
    deliveryMethod := DeliveryMethod.delivery
    deliveryCoordinates := none
    deliveryDistance := none
    pickupCode := none
    deliveryCode := some "ATMOS-D-1234"
    status := "pending"
    paymentStatus := "success"
    orderReference := some "oref"
    paymentReference := some "MANUAL-oref"
    paystackReference := some "psr"
    paidAt := some 0
    receiptImage := none
    paymentMethod := none
    paymentDetails := none }

/-- A `charge.failed` event data naming `orderS0`'s gateway reference. -/
def evF0 : PaystackEventData := ⟨"psr", 0, 0, none⟩

/-- A manual-flow order still awaiting verification (`pending`/`pending`). -/
def orderP0 : Order :=
  { orderS0 with
    oid := "oidP"
    paymentStatus := "pending"
    paystackReference := none
    paidAt := none }

/-- A cart referencing a product absent from the Scenario A catalog. -/
def inputMissing : CreateOrderInput :=
  { scenarioAInput with items := [⟨"missing", 1, none⟩] }

/-- A cart whose only protein reference resolves to nothing. -/
def inputGhost : CreateOrderInput :=
  { scenarioAInput with items := [⟨"rice", 1, some ["ghost"]⟩] }

/-- A delivery cart with distance 0 (falsy in JS, so no fee). -/
def inputDist0 : CreateOrderInput :=
  { scenarioAInput with
    deliveryMethod := DeliveryMethod.delivery
    deliveryDistance := some 0 }

/-- A delivery cart with distance 5 km. -/
def inputDist5 : CreateOrderInput :=
  { scenarioAInput with
    deliveryMethod := DeliveryMethod.delivery
    deliveryDistance := some 5 }

/-- A generated-code pickup cart (`verificationCode` absent); `scenarioADeps` pins
`Math.random()` to 0, so the generated code number is `⌊1000 + 0·9000⌋ = 1000`. -/
def inputGen : CreateOrderInput := { scenarioAInput with verificationCode := none }

/-- The order `createOrder` assembles from `inputGen`: Scenario A with a synthesized
pickup code. -/
def genOrder : Order := { scenarioAOrder with pickupCode := some "ATMOS-P-1000" }

end Atmos

namespace Atmos

/-- C2: for every non-negative distance `d`, the fee is exactly the base fee when
`d ≤ BASE_KM`, and base fee plus `⌈d - BASE_KM⌉ · RATE_PER_KM` when `d > BASE_KM`;
in particular `fee 5 = 1000` under the schedule base 400 up to 2 km, 200 per km beyond. -/
theorem fee_tiered_schedule (d : ℚ) (_hd : 0 ≤ d) :
    (d ≤ 2 → calculateFeeFromDistance d = 400) ∧
    (2 < d → calculateFeeFromDistance d = 400 + (⌈d - 2⌉ : ℚ) * 200) ∧
    calculateFeeFromDistance 5 = 1000 := by
  refine ⟨fun h => ?_, fun h => ?_, ?_⟩
  · simp [calculateFeeFromDistance, PRICING, h]
  · simp [calculateFeeFromDistance, PRICING, not_le.mpr h]
  · norm_num [calculateFeeFromDistance, PRICING]

/-- Witness for C2 at the concrete distance 5 km. -/
theorem fee_tiered_schedule_witness :
    (0 : ℚ) ≤ 5 ∧ calculateFeeFromDistance 5 = 1000 :=
  ⟨by norm_num, (fee_tiered_schedule 5 (by norm_num)).2.2⟩

/-- On pickup orders the `deliveryMethod === 'delivery'` guard fails, so no fee. -/
theorem orderDeliveryFee_pickup (deps : OrderDeps) (input : CreateOrderInput)
    (h : input.deliveryMethod = DeliveryMethod.pickup) : orderDeliveryFee deps input = 0 := by
  cases hd : input.deliveryDistance <;> simp [orderDeliveryFee, h, hd]

/-- The pricing loop: a successful run returns exactly the line items' price × quantity
sum, and each produced line item's price is its product's base price plus the sum of its
resolved proteins' prices (unresolved protein references contribute nothing). -/
theorem buildItems_ok (prod : String → Option Product) (prot : String → Option Protein) :
    ∀ (items : List CartItem) (lst : List OrderItem) (total : ℚ),
      buildItems prod prot items = Except.ok (lst, total) →
      total = (lst.map fun it => it.price * (it.quantity : ℚ)).sum ∧
      ∀ oi ∈ lst, ∃ ci ∈ items, ∃ p, prod ci.product = some p ∧
        oi.price = p.price +
          (((ci.proteins.getD []).filterMap prot).map Protein.price).sum ∧
        oi.proteinNames = ((ci.proteins.getD []).filterMap prot).map Protein.name := by
  intro items
  induction items with
  | nil =>
    intro lst total h
    simp only [buildItems, Except.ok.injEq, Prod.mk.injEq] at h
    obtain ⟨hl, ht⟩ := h
    subst hl; subst ht
    simp
  | cons item rest ih =>
    intro lst total h
    simp only [buildItems] at h
    cases hp : prod item.product with
    | none => rw [hp] at h; exact absurd h (by simp)
    | some p =>
      rw [hp] at h
      cases hr : buildItems prod prot rest with
      | error e => rw [hr] at h; exact absurd h (by simp)
      | ok pr =>
        obtain ⟨restItems, restTotal⟩ := pr
        rw [hr] at h
        simp only [Except.ok.injEq, Prod.mk.injEq] at h
        obtain ⟨hl, ht⟩ := h
        obtain ⟨ihT, ihP⟩ := ih restItems restTotal hr
        subst hl
        constructor
        · rw [← ht, ihT]
          simp
        · intro oi hoi
          rcases List.mem_cons.mp hoi with hhead | htail
          · subst hhead
            exact ⟨item, List.mem_cons_self item rest, p, hp, rfl, rfl⟩
          · obtain ⟨ci, hci, q, hq, hprice, hnames⟩ := ihP oi htail
            exact ⟨ci, List.mem_cons_of_mem item hci, q, hq, hprice, hnames⟩

/-- C1: for every validated cart accepted by `createOrder`, the persisted order's
`totalAmount` is the sum over the order's line items of price × quantity plus the
delivery fee; the delivery fee is 0 for pickup; and every line item's price is the base
product price plus the sum of the prices of its resolved proteins. -/
theorem createOrder_totalAmount (deps : OrderDeps) (prod : String → Option Product)
    (prot : String → Option Protein) (input : CreateOrderInput) (order : Order)
    (h : createOrder deps prod prot input = Except.ok order) :
    order.totalAmount
        = (order.items.map fun it => it.price * (it.quantity : ℚ)).sum
          + orderDeliveryFee deps input ∧
    (input.deliveryMethod = DeliveryMethod.pickup → orderDeliveryFee deps input = 0) ∧
    ∀ oi ∈ order.items, ∃ ci ∈ input.items, ∃ p, prod ci.product = some p ∧
      oi.price = p.price +
        (((ci.proteins.getD []).filterMap prot).map Protein.price).sum := by
  unfold createOrder at h
  by_cases he : input.items.isEmpty
  · rw [if_pos he] at h; exact absurd h (by simp)
  · rw [if_neg he] at h
    cases hb : buildItems prod prot input.items with
    | error e => rw [hb] at h; exact absurd h (by simp)
    | ok pr =>
      obtain ⟨populatedItems, subtotal⟩ := pr
      rw [hb] at h
      simp only [Except.ok.injEq] at h
      obtain ⟨hT, hP⟩ := buildItems_ok prod prot input.items populatedItems subtotal hb
      subst h
      refine ⟨?_, orderDeliveryFee_pickup deps input, ?_⟩
      · simpa using congrArg (· + orderDeliveryFee deps input) hT
      · intro oi hoi
        have hoi' : oi ∈ populatedItems := by simpa using hoi
        obtain ⟨ci, hci, p, hp, hprice, hnames⟩ := hP oi hoi'
        exact ⟨ci, hci, p, hp, hprice⟩

/-- Witness for C1: Scenario A runs, produces `totalAmount = 16000 = (4500+3500)×2`,
and satisfies the pricing equations. -/
theorem createOrder_totalAmount_witness :
    createOrder scenarioADeps scenarioAProd scenarioAProt scenarioAInput
        = Except.ok scenarioAOrder ∧
    scenarioAOrder.totalAmount = 16000 ∧
    (scenarioAOrder.totalAmount
        = (scenarioAOrder.items.map fun it => it.price * (it.quantity : ℚ)).sum
          + orderDeliveryFee scenarioADeps scenarioAInput ∧
      (scenarioAInput.deliveryMethod = DeliveryMethod.pickup →
        orderDeliveryFee scenarioADeps scenarioAInput = 0) ∧
      ∀ oi ∈ scenarioAOrder.items, ∃ ci ∈ scenarioAInput.items, ∃ p,
        scenarioAProd ci.product = some p ∧
        oi.price = p.price +
          (((ci.proteins.getD []).filterMap scenarioAProt).map Protein.price).sum) := by
  have hrun : createOrder scenarioADeps scenarioAProd scenarioAProt scenarioAInput
      = Except.ok scenarioAOrder := by
    simp only [createOrder, buildItems, scenarioADeps, scenarioAProd, scenarioAProt,
      scenarioAInput, scenarioAOrder, orderDeliveryFee, verificationCodes, genCodeNum]
    norm_num [List.filterMap_cons, List.filterMap_nil, scenarioAProt]
    decide
  exact ⟨hrun, rfl,
    createOrder_totalAmount scenarioADeps scenarioAProd scenarioAProt scenarioAInput
      scenarioAOrder hrun⟩

/-- C3: the gateway-flow `createOrder` never writes to the store (it only opens a
session and returns its redirect URL and reference), and the gateway webhook persists
an order exactly on an authenticated `charge.success` event — created directly with
fulfillment status `'confirmed'` and payment status `'success'`. -/
theorem gateway_defers_persistence (deps : OrderDeps)
    (initPay : String → ℚ → String → GatewayMetadata → GatewaySession)
    (prod : String → Option Product) (prot : String → Option Protein)
    (input : CreateOrderInput) (store : List Order)
    (hmac : String → GatewayEvent → String) (secret sig : String) (ev : GatewayEvent)
    (oid : String) (store2 : List Order) (hsig : hmac secret ev = sig) :
    (createOrderGateway deps initPay prod prot input store).1 = store ∧
    (ev.event = "charge.success" →
      paystackWebhook hmac secret sig ev oid store2
        = (store2 ++ [orderFromMetadata ev.metadata ev.reference oid],
            Except.ok "Webhook Received", ["notifyNewOrder:" ++ ev.reference]) ∧
      (orderFromMetadata ev.metadata ev.reference oid).status = "confirmed" ∧
      (orderFromMetadata ev.metadata ev.reference oid).paymentStatus = "success") ∧
    (ev.event ≠ "charge.success" →
      (paystackWebhook hmac secret sig ev oid store2).1 = store2) := by
  refine ⟨?_, fun hev => ?_, fun hev => ?_⟩
  · cases h : assembleGatewayPayload deps prod prot input <;> simp [createOrderGateway, h]
  · refine ⟨?_, rfl, rfl⟩
    simp [paystackWebhook, hsig, hev]
  · simp [paystackWebhook, hsig, hev]

/-- Witness for C3: a concrete gateway run on an empty store, then the authenticated
`charge.success` webhook on another store. -/
theorem gateway_defers_persistence_witness :
    hmacG0 "sk" evG0 = "sig0" ∧
    ((createOrderGateway scenarioADeps initPayFixed prodNone protNone inputG0 []).1 = [] ∧
      (evG0.event = "charge.success" →
        paystackWebhook hmacG0 "sk" "sig0" evG0 "oid0" []
          = ([] ++ [orderFromMetadata evG0.metadata evG0.reference "oid0"],
              Except.ok "Webhook Received", ["notifyNewOrder:" ++ evG0.reference]) ∧
        (orderFromMetadata evG0.metadata evG0.reference "oid0").status = "confirmed" ∧
        (orderFromMetadata evG0.metadata evG0.reference "oid0").paymentStatus
            = "success") ∧
      (evG0.event ≠ "charge.success" →
        (paystackWebhook hmacG0 "sk" "sig0" evG0 "oid0" []).1 = [])) :=
  ⟨rfl, gateway_defers_persistence scenarioADeps initPayFixed prodNone protNone inputG0 []
    hmacG0 "sk" "sig0" evG0 "oid0" [] rfl⟩

/-- C7: on a signature mismatch both webhook entry points fail with a 401 and perform
no further processing — the store is unchanged and nothing is dispatched, whatever the
payload contains. -/
theorem webhook_invalid_signature (hmacA : String → PaystackEvent → String)
    (hmacB : String → GatewayEvent → String) (secret sigA sigB : String) (now : ℚ)
    (evA : PaystackEvent) (evB : GatewayEvent) (oid : String) (store store2 : List Order)
    (hA : hmacA secret evA ≠ sigA) (hB : hmacB secret evB ≠ sigB) :
    handlePaystackWebhook hmacA secret sigA now evA store = (store, 401, []) ∧
    paystackWebhook hmacB secret sigB evB oid store2
      = (store2, Except.error ⟨"Invalid signature", 401⟩, []) := by
  constructor
  · simp [handlePaystackWebhook, hA]
  · simp [paystackWebhook, hB]

/-- Witness for C7: a signature that does not match the recomputed hash. -/
theorem webhook_invalid_signature_witness :
    (fun (_ : String) (_ : PaystackEvent) => "h") "sk" ⟨"charge.success", evF0⟩ ≠ "bad" ∧
    hmacG0 "sk" evG0 ≠ "bad" ∧
    (handlePaystackWebhook (fun _ _ => "h") "sk" "bad" 0 ⟨"charge.success", evF0⟩ [orderS0]
        = ([orderS0], 401, []) ∧
      paystackWebhook hmacG0 "sk" "bad" evG0 "oid0" [orderS0]
        = ([orderS0], Except.error ⟨"Invalid signature", 401⟩, [])) :=
  ⟨by decide, by decide,
    webhook_invalid_signature (fun _ _ => "h") hmacG0 "sk" "bad" "bad" 0
      ⟨"charge.success", evF0⟩ evG0 "oid0" [orderS0] [orderS0] (by decide) (by decide)⟩

/-- Counterexample to C4: `orderS0` is in payment status `'success'`, yet a later
`charge.failed` event for its reference flips it to `'failed'` — the failed-payment
transition is a blind overwrite, not a guarded one. -/
theorem failed_after_success_counterexample :
    orderS0.paymentStatus = "success" ∧
    (handleFailedPayment evF0 0 [orderS0]).1.map Order.paymentStatus = ["failed"] :=
  ⟨rfl, by decide⟩

/-- C4 amended: a duplicate `charge.success` on an already-successful order is a
guarded no-op (no write, no dispatch), but `handleFailedPayment` applies the `'failed'`
status unconditionally to any found order — so a `charge.failed` arriving after success
overwrites the payment status to `'failed'` instead of leaving it `'success'`. -/
theorem webhook_payment_transitions (ev : PaystackEventData) (now : ℚ)
    (store : List Order) (order : Order)
    (hfound : findByRef ev.reference store = some order) :
    (order.paymentStatus = "success" →
      handleSuccessfulPayment ev store = (store, [])) ∧
    handleFailedPayment ev now store
      = (updateById order.oid (failedUpdate order ev now) store,
          ["payment-failed:" ++ ev.reference]) ∧
    (failedUpdate order ev now).paymentStatus = "failed" := by
  refine ⟨fun hs => ?_, ?_, rfl⟩
  · simp [handleSuccessfulPayment, hfound, hs]
  · simp [handleFailedPayment, hfound]

/-- Witness for C4 (amended) at the concrete store `[orderS0]`. -/
theorem webhook_payment_transitions_witness :
    findByRef evF0.reference [orderS0] = some orderS0 ∧
    ((orderS0.paymentStatus = "success" →
        handleSuccessfulPayment evF0 [orderS0] = ([orderS0], [])) ∧
      handleFailedPayment evF0 0 [orderS0]
        = (updateById orderS0.oid (failedUpdate orderS0 evF0 0) [orderS0],
            ["payment-failed:" ++ evF0.reference]) ∧
      (failedUpdate orderS0 evF0 0).paymentStatus = "failed") :=
  ⟨by decide, webhook_payment_transitions evF0 0 [orderS0] orderS0 (by decide)⟩

/-- Counterexample to C6: delivering the identical authenticated `charge.success`
gateway event twice persists two orders and dispatches two "new order" messages —
the gateway-flow webhook performs no duplicate detection. -/
theorem duplicate_webhook_two_orders_counterexample :
    dupRun2.1.length = 2 ∧ dupRun1.2.2.length + dupRun2.2.2.length = 2 := by
  constructor <;> decide

/-- C6 amended: the gateway-flow webhook (`paystackWebhook`) has no duplicate
detection — each delivery of the same authenticated `charge.success` event appends a
fresh order to the store and dispatches one notification, so two deliveries yield two
persisted orders and two notifications. Duplicate detection exists only in the separate
`handlePaystackWebhook` path, whose `handleSuccessfulPayment` never creates orders and
treats an already-`success` order as a silent no-op. -/
theorem paystackWebhook_no_dedup (hmac : String → GatewayEvent → String)
    (secret sig : String) (ev : GatewayEvent) (oid1 oid2 : String) (store : List Order)
    (hsig : hmac secret ev = sig) (hev : ev.event = "charge.success") :
    paystackWebhook hmac secret sig ev oid1 store
      = (store ++ [orderFromMetadata ev.metadata ev.reference oid1],
          Except.ok "Webhook Received", ["notifyNewOrder:" ++ ev.reference]) ∧
    paystackWebhook hmac secret sig ev oid2
        (store ++ [orderFromMetadata ev.metadata ev.reference oid1])
      = (store ++ [orderFromMetadata ev.metadata ev.reference oid1]
            ++ [orderFromMetadata ev.metadata ev.reference oid2],
          Except.ok "Webhook Received", ["notifyNewOrder:" ++ ev.reference]) ∧
    (∀ evd (store' : List Order) (order : Order),
      findByRef evd.reference store' = some order → order.paymentStatus = "success" →
      handleSuccessfulPayment evd store' = (store', [])) := by
  refine ⟨?_, ?_, fun evd store' order hfound hs => ?_⟩
  · simp [paystackWebhook, hsig, hev]
  · simp [paystackWebhook, hsig, hev]
  · simp [handleSuccessfulPayment, hfound, hs]

/-- Witness for C6 (amended) on the concrete duplicated event `evG0`. -/
theorem paystackWebhook_no_dedup_witness :
    hmacG0 "sk" evG0 = "sig0" ∧ evG0.event = "charge.success" ∧
    (paystackWebhook hmacG0 "sk" "sig0" evG0 "oidB" []
        = ([] ++ [orderFromMetadata evG0.metadata evG0.reference "oidB"],
            Except.ok "Webhook Received", ["notifyNewOrder:" ++ evG0.reference]) ∧
      paystackWebhook hmacG0 "sk" "sig0" evG0 "oidA"
          ([] ++ [orderFromMetadata evG0.metadata evG0.reference "oidB"])
        = ([] ++ [orderFromMetadata evG0.metadata evG0.reference "oidB"]
              ++ [orderFromMetadata evG0.metadata evG0.reference "oidA"],
            Except.ok "Webhook Received", ["notifyNewOrder:" ++ evG0.reference]) ∧
      (∀ evd (store' : List Order) (order : Order),
        findByRef evd.reference store' = some order → order.paymentStatus = "success" →
        handleSuccessfulPayment evd store' = (store', []))) :=
  ⟨rfl, rfl, paystackWebhook_no_dedup hmacG0 "sk" "sig0" evG0 "oidB" "oidA" [] rfl rfl⟩

/-- An order found by id carries that id. -/
theorem findById_oid (store : List Order) (oid : String) (order : Order)
    (h : findById oid store = some order) : order.oid = oid := by
  have := List.find?_some h
  simpa using this

/-- Re-finding by id after an id-keyed save returns the saved document. -/
theorem findById_updateById (store : List Order) (oid : String) (o' : Order)
    (h : o'.oid = oid) :
    findById oid (updateById oid o' store) = (findById oid store).map (fun _ => o') := by
  induction store with
  | nil => rfl
  | cons o rest ih =>
    by_cases ho : o.oid = oid
    · simp [findById, updateById, ho, h]
    · simp only [updateById, List.map_cons, if_neg ho]
      simp only [findById, updateById] at ih ⊢
      rw [List.find?_cons_of_neg _ (by simp [ho]),
        List.find?_cons_of_neg _ (by simp [ho])]
      exact ih

/-- C5: the first `verifyPayment` call on a pending manual-flow order marks it
`success`/`preparing`, stamps `paidAt`, stores the receipt, and saves; a second call on
the same order fails with the 400 `'Payment already verified'` error and changes
nothing. -/
theorem verifyPayment_once_then_rejected (store : List Order) (oid : String)
    (order : Order) (receipt receipt2 : Option String) (t t2 : ℚ)
    (hfind : findById oid store = some order)
    (hpend : order.paymentStatus = "pending") :
    verifyPayment (some oid) receipt t store
      = (updateById oid (verifiedUpdate order receipt t) store,
          Except.ok (verifiedUpdate order receipt t), ["verified:" ++ oid]) ∧
    (verifiedUpdate order receipt t).paymentStatus = "success" ∧
    (verifiedUpdate order receipt t).status = "preparing" ∧
    (verifiedUpdate order receipt t).paidAt = some t ∧
    (verifiedUpdate order receipt t).receiptImage = receipt ∧
    verifyPayment (some oid) receipt2 t2
        (updateById oid (verifiedUpdate order receipt t) store)
      = (updateById oid (verifiedUpdate order receipt t) store,
          Except.error ⟨"Payment already verified", 400⟩, []) := by
  have hne : ¬ order.paymentStatus = "success" := by rw [hpend]; decide
  refine ⟨?_, rfl, rfl, rfl, rfl, ?_⟩
  · simp [verifyPayment, hfind, hne]
  · have hoid : (verifiedUpdate order receipt t).oid = oid := by
      simpa [verifiedUpdate] using findById_oid store oid order hfind
    have h2 : findById oid (updateById oid (verifiedUpdate order receipt t) store)
        = some (verifiedUpdate order receipt t) := by
      rw [findById_updateById store oid _ hoid, hfind]
      rfl
    simp only [verifyPayment]
    rw [h2]
    simp [verifiedUpdate]

/-- Witness for C5 on the concrete pending order `orderP0`. -/
theorem verifyPayment_once_then_rejected_witness :
    findById "oidP" [orderP0] = some orderP0 ∧
    orderP0.paymentStatus = "pending" ∧
    (verifyPayment (some "oidP") (some "receipt.jpg") 7 [orderP0]
        = (updateById "oidP" (verifiedUpdate orderP0 (some "receipt.jpg") 7) [orderP0],
            Except.ok (verifiedUpdate orderP0 (some "receipt.jpg") 7), ["verified:" ++ "oidP"]) ∧
      (verifiedUpdate orderP0 (some "receipt.jpg") 7).paymentStatus = "success" ∧
      (verifiedUpdate orderP0 (some "receipt.jpg") 7).status = "preparing" ∧
      (verifiedUpdate orderP0 (some "receipt.jpg") 7).paidAt = some 7 ∧
      (verifiedUpdate orderP0 (some "receipt.jpg") 7).receiptImage = some "receipt.jpg" ∧
      verifyPayment (some "oidP") (some "again.jpg") 9
          (updateById "oidP" (verifiedUpdate orderP0 (some "receipt.jpg") 7) [orderP0])
        = (updateById "oidP" (verifiedUpdate orderP0 (some "receipt.jpg") 7) [orderP0],
            Except.error ⟨"Payment already verified", 400⟩, [])) :=
  ⟨by decide, rfl,
    verifyPayment_once_then_rejected [orderP0] "oidP" orderP0 (some "receipt.jpg")
      (some "again.jpg") 7 9 (by decide) rfl⟩

/-- Every error the pricing loop raises is the 404 product-not-found error. -/
theorem buildItems_error_status (prod : String → Option Product)
    (prot : String → Option Protein) :
    ∀ (items : List CartItem) (e : AppError),
      buildItems prod prot items = Except.error e → e.statusCode = 404 := by
  intro items
  induction items with
  | nil => intro e h; exact absurd h (by simp [buildItems])
  | cons item rest ih =>
    intro e h
    simp only [buildItems] at h
    cases hp : prod item.product with
    | none =>
      rw [hp] at h
      simp only [Except.error.injEq] at h
      rw [← h]
    | some p =>
      rw [hp] at h
      cases hr : buildItems prod prot rest with
      | error e2 =>
        rw [hr] at h
        simp only [Except.error.injEq] at h
        exact h ▸ ih e2 hr
      | ok pr => rw [hr] at h; exact absurd h (by simp)

/-- A cart item whose product reference resolves to nothing makes the loop fail. -/
theorem buildItems_missing (prod : String → Option Product)
    (prot : String → Option Protein) :
    ∀ items : List CartItem, (∃ ci ∈ items, prod ci.product = none) →
      ∃ e, buildItems prod prot items = Except.error e := by
  intro items
  induction items with
  | nil => rintro ⟨ci, hci, _⟩; exact absurd hci (by simp)
  | cons item rest ih =>
    rintro ⟨ci, hci, hnone⟩
    cases hp : prod item.product with
    | none => exact ⟨_, by simp only [buildItems, hp]; rfl⟩
    | some p =>
      rcases List.mem_cons.mp hci with hhead | htail
      · subst hhead; rw [hp] at hnone; exact absurd hnone (by simp)
      · obtain ⟨e, he⟩ := ih ⟨ci, htail, hnone⟩
        exact ⟨e, by simp [buildItems, hp, he]⟩

/-- When every product reference resolves, the loop succeeds whatever the protein
references resolve to. -/
theorem buildItems_all_found (prod : String → Option Product)
    (prot : String → Option Protein) :
    ∀ items : List CartItem, (∀ ci ∈ items, (prod ci.product).isSome) →
      ∃ res, buildItems prod prot items = Except.ok res := by
  intro items
  induction items with
  | nil => intro _; exact ⟨([], 0), rfl⟩
  | cons item rest ih =>
    intro hall
    obtain ⟨p, hp⟩ := Option.isSome_iff_exists.mp (hall item (List.mem_cons_self item rest))
    obtain ⟨⟨restItems, restTotal⟩, hr⟩ :=
      ih (fun ci hci => hall ci (List.mem_cons_of_mem item hci))
    exact ⟨_, by simp only [buildItems, hp, hr]; rfl⟩

/-- C8: a cart item whose product reference resolves to nothing aborts the whole
creation with a 404 error and nothing is persisted, while protein references that
resolve to nothing are silently omitted from the line item's price and name snapshots
without failing the order. -/
theorem createOrder_product_required_protein_optional (deps : OrderDeps)
    (prod : String → Option Product) (prot : String → Option Protein)
    (input : CreateOrderInput) (store : List Order) (hne : input.items ≠ []) :
    ((∃ ci ∈ input.items, prod ci.product = none) →
      (∃ e, createOrder deps prod prot input = Except.error e ∧ e.statusCode = 404) ∧
      (createOrderEndpoint deps prod prot input store).1 = store) ∧
    ((∀ ci ∈ input.items, (prod ci.product).isSome) →
      ∃ order, createOrder deps prod prot input = Except.ok order ∧
        ∀ oi ∈ order.items, ∃ ci ∈ input.items, ∃ p, prod ci.product = some p ∧
          oi.price = p.price +
            (((ci.proteins.getD []).filterMap prot).map Protein.price).sum ∧
          oi.proteinNames = ((ci.proteins.getD []).filterMap prot).map Protein.name) := by
  have hie : input.items.isEmpty = false := by
    cases hh : input.items with
    | nil => exact absurd hh hne
    | cons a l => rfl
  constructor
  · intro hmiss
    obtain ⟨e, he⟩ := buildItems_missing prod prot input.items hmiss
    have h404 := buildItems_error_status prod prot input.items e he
    refine ⟨⟨e, ?_, h404⟩, ?_⟩
    · simp [createOrder, hie, he]
    · simp [createOrderEndpoint, createOrder, hie, he]
  · intro hall
    obtain ⟨⟨lst, total⟩, hok⟩ := buildItems_all_found prod prot input.items hall
    cases hc : createOrder deps prod prot input with
    | error e => exact absurd hc (by simp [createOrder, hie, hok])
    | ok order =>
      refine ⟨order, rfl, ?_⟩
      have hitems : order.items = lst := by
        simp only [createOrder, hie, Bool.false_eq_true, if_false, hok] at hc
        simp only [Except.ok.injEq] at hc
        rw [← hc]
      rw [hitems]
      exact (buildItems_ok prod prot input.items lst total hok).2

/-- Witness for C8: `inputMissing` (unknown product) aborts with 404 and leaves the
store alone; `inputGhost` (unknown protein only) succeeds with an empty protein name
snapshot. -/
theorem createOrder_product_required_protein_optional_witness :
    inputMissing.items ≠ [] ∧ inputGhost.items ≠ [] ∧
    (∃ ci ∈ inputMissing.items, scenarioAProd ci.product = none) ∧
    (∀ ci ∈ inputGhost.items, (scenarioAProd ci.product).isSome) ∧
    (createOrder scenarioADeps scenarioAProd scenarioAProt inputGhost).map
        (fun o => o.items.map OrderItem.proteinNames) = Except.ok [[]] ∧
    ((∃ e, createOrder scenarioADeps scenarioAProd scenarioAProt inputMissing
          = Except.error e ∧ e.statusCode = 404) ∧
      (createOrderEndpoint scenarioADeps scenarioAProd scenarioAProt inputMissing
          [orderS0]).1 = [orderS0]) ∧
    (∃ order, createOrder scenarioADeps scenarioAProd scenarioAProt inputGhost
          = Except.ok order ∧
        ∀ oi ∈ order.items, ∃ ci ∈ inputGhost.items, ∃ p,
          scenarioAProd ci.product = some p ∧
          oi.price = p.price +
            (((ci.proteins.getD []).filterMap scenarioAProt).map Protein.price).sum ∧
          oi.proteinNames
            = ((ci.proteins.getD []).filterMap scenarioAProt).map Protein.name) := by
  refine ⟨by decide, by decide, by decide, by decide, by decide, ?_, ?_⟩
  · exact (createOrder_product_required_protein_optional scenarioADeps scenarioAProd
      scenarioAProt inputMissing [orderS0] (by decide)).1 (by decide)
  · exact (createOrder_product_required_protein_optional scenarioADeps scenarioAProd
      scenarioAProt inputGhost [orderS0] (by decide)).2 (by decide)


/-- A string with the `ATMOS-` style prefix is never empty. -/
theorem prefix_append_ne_empty (pre s : String) (h : pre.data ≠ []) : pre ++ s ≠ "" := by
  intro hh
  apply h
  have hdata := congrArg String.data hh
  rw [String.data_append] at hdata
  exact (List.append_eq_nil.mp hdata).1

/-- `Math.floor(1000 + Math.random() * 9000)` lies in `[1000, 9999]`. -/
theorem genCodeNum_bounds (rand : ℚ) (h0 : 0 ≤ rand) (h1 : rand < 1) :
    1000 ≤ genCodeNum rand ∧ genCodeNum rand ≤ 9999 := by
  unfold genCodeNum
  constructor
  · apply Int.le_floor.mpr
    push_cast
    nlinarith
  · have hlt : ⌊(1000 : ℚ) + rand * 9000⌋ < 10000 := by
      apply Int.floor_lt.mpr
      push_cast
      nlinarith
    omega

/-- A truthy caller-supplied code is used verbatim. -/
theorem verificationCodes_truthy (method : DeliveryMethod) (c : String) (rand : ℚ)
    (hc : c ≠ "") :
    verificationCodes method (some c) rand
      = match method with
        | DeliveryMethod.pickup => (c, "")
        | DeliveryMethod.delivery => ("", c) := by
  simp [verificationCodes, hc]

/-- A falsy supplied code falls back to the generated `ATMOS-` code. -/
theorem verificationCodes_falsy (method : DeliveryMethod) (supplied : Option String)
    (rand : ℚ) (hs : supplied = none ∨ supplied = some "") :
    verificationCodes method supplied rand
      = match method with
        | DeliveryMethod.pickup => ("ATMOS-P-" ++ toString (genCodeNum rand), "")
        | DeliveryMethod.delivery => ("", "ATMOS-D-" ++ toString (genCodeNum rand)) := by
  rcases hs with hs | hs <;> subst hs <;> simp [verificationCodes]


/-- For pickup, the code pair is always `(nonempty, "")`. -/
theorem verificationCodes_pickup_shape (supplied : Option String) (rand : ℚ) :
    (verificationCodes DeliveryMethod.pickup supplied rand).2 = "" ∧
    (verificationCodes DeliveryMethod.pickup supplied rand).1 ≠ "" := by
  rcases supplied with _ | c
  · rw [verificationCodes_falsy _ _ _ (Or.inl rfl)]
    exact ⟨rfl, prefix_append_ne_empty _ _ (by decide)⟩
  · by_cases hc : c = ""
    · subst hc
      rw [verificationCodes_falsy _ _ _ (Or.inr rfl)]
      exact ⟨rfl, prefix_append_ne_empty _ _ (by decide)⟩
    · rw [verificationCodes_truthy _ _ _ hc]
      exact ⟨rfl, hc⟩

/-- For delivery, the code pair is always `("", nonempty)`. -/
theorem verificationCodes_delivery_shape (supplied : Option String) (rand : ℚ) :
    (verificationCodes DeliveryMethod.delivery supplied rand).1 = "" ∧
    (verificationCodes DeliveryMethod.delivery supplied rand).2 ≠ "" := by
  rcases supplied with _ | c
  · rw [verificationCodes_falsy _ _ _ (Or.inl rfl)]
    exact ⟨rfl, prefix_append_ne_empty _ _ (by decide)⟩
  · by_cases hc : c = ""
    · subst hc
      rw [verificationCodes_falsy _ _ _ (Or.inr rfl)]
      exact ⟨rfl, prefix_append_ne_empty _ _ (by decide)⟩
    · rw [verificationCodes_truthy _ _ _ hc]
      exact ⟨rfl, hc⟩


/-- C9: every order `createOrder` produces populates exactly the verification code
field matching its delivery method — never both, never neither; a truthy caller code is
used verbatim, and a synthesized one is the literal `ATMOS-P-`/`ATMOS-D-` prefix
followed by a number in `[1000, 9999]` (four digits). -/
theorem createOrder_verification_code (deps : OrderDeps) (prod : String → Option Product)
    (prot : String → Option Protein) (input : CreateOrderInput) (order : Order)
    (h : createOrder deps prod prot input = Except.ok order) :
    (input.deliveryMethod = DeliveryMethod.pickup →
      order.pickupCode.isSome ∧ order.deliveryCode = none) ∧
    (input.deliveryMethod = DeliveryMethod.delivery →
      order.deliveryCode.isSome ∧ order.pickupCode = none) ∧
    (∀ c, input.verificationCode = some c → c ≠ "" →
      (input.deliveryMethod = DeliveryMethod.pickup → order.pickupCode = some c) ∧
      (input.deliveryMethod = DeliveryMethod.delivery → order.deliveryCode = some c)) ∧
    ((input.verificationCode = none ∨ input.verificationCode = some "") →
      0 ≤ deps.rand → deps.rand < 1 →
      ∃ n : ℤ, 1000 ≤ n ∧ n ≤ 9999 ∧
        (input.deliveryMethod = DeliveryMethod.pickup →
          order.pickupCode = some ("ATMOS-P-" ++ toString n)) ∧
        (input.deliveryMethod = DeliveryMethod.delivery →
          order.deliveryCode = some ("ATMOS-D-" ++ toString n))) := by
  unfold createOrder at h
  by_cases he : input.items.isEmpty
  · rw [if_pos he] at h
    exact absurd h (by simp)
  · rw [if_neg he] at h
    cases hb : buildItems prod prot input.items with
    | error e => rw [hb] at h; exact absurd h (by simp)
    | ok pr =>
      obtain ⟨lst, subtotal⟩ := pr
      rw [hb] at h
      simp only [Except.ok.injEq] at h
      subst h
      cases hm : input.deliveryMethod with
      | pickup =>
        obtain ⟨hz, hnz⟩ :=
          verificationCodes_pickup_shape input.verificationCode deps.rand
        refine ⟨fun _ => ?_, fun hdel => absurd hdel (by decide), ?_, ?_⟩
        · simp [hz, hnz]
        · intro c hc hcne
          refine ⟨fun _ => ?_, fun hdel => absurd hdel (by decide)⟩
          show (if (verificationCodes DeliveryMethod.pickup input.verificationCode
              deps.rand).1 = "" then none else some (verificationCodes
              DeliveryMethod.pickup input.verificationCode deps.rand).1) = some c
          rw [hc, verificationCodes_truthy _ _ _ hcne]
          simp [hcne]
        · intro hs h0 h1
          obtain ⟨hlo, hhi⟩ := genCodeNum_bounds deps.rand h0 h1
          refine ⟨genCodeNum deps.rand, hlo, hhi, fun _ => ?_,
            fun hdel => absurd hdel (by decide)⟩
          show (if (verificationCodes DeliveryMethod.pickup input.verificationCode
              deps.rand).1 = "" then none else some (verificationCodes
              DeliveryMethod.pickup input.verificationCode deps.rand).1)
            = some ("ATMOS-P-" ++ toString (genCodeNum deps.rand))
          rw [verificationCodes_falsy _ _ _ hs]
          simpa using prefix_append_ne_empty "ATMOS-P-"
            (toString (genCodeNum deps.rand)) (by decide)
      | delivery =>
        obtain ⟨hz, hnz⟩ :=
          verificationCodes_delivery_shape input.verificationCode deps.rand
        refine ⟨fun hpk => absurd hpk (by decide), fun _ => ?_, ?_, ?_⟩
        · simp [hz, hnz]
        · intro c hc hcne
          refine ⟨fun hpk => absurd hpk (by decide), fun _ => ?_⟩
          show (if (verificationCodes DeliveryMethod.delivery input.verificationCode
              deps.rand).2 = "" then none else some (verificationCodes
              DeliveryMethod.delivery input.verificationCode deps.rand).2) = some c
          rw [hc, verificationCodes_truthy _ _ _ hcne]
          simp [hcne]
        · intro hs h0 h1
          obtain ⟨hlo, hhi⟩ := genCodeNum_bounds deps.rand h0 h1
          refine ⟨genCodeNum deps.rand, hlo, hhi,
            fun hpk => absurd hpk (by decide), fun _ => ?_⟩
          show (if (verificationCodes DeliveryMethod.delivery input.verificationCode
              deps.rand).2 = "" then none else some (verificationCodes
              DeliveryMethod.delivery input.verificationCode deps.rand).2)
            = some ("ATMOS-D-" ++ toString (genCodeNum deps.rand))
          rw [verificationCodes_falsy _ _ _ hs]
          simpa using prefix_append_ne_empty "ATMOS-D-"
            (toString (genCodeNum deps.rand)) (by decide)


/-- Witness for C9: the generated-code pickup run (`inputGen`, random draw 0) produces
`pickupCode = some "ATMOS-P-1000"` and no delivery code, and satisfies the code-shape
properties. -/
theorem createOrder_verification_code_witness :
    createOrder scenarioADeps scenarioAProd scenarioAProt inputGen = Except.ok genOrder ∧
    genOrder.pickupCode = some "ATMOS-P-1000" ∧
    genOrder.deliveryCode = none ∧
    ((inputGen.deliveryMethod = DeliveryMethod.pickup →
        genOrder.pickupCode.isSome ∧ genOrder.deliveryCode = none) ∧
      (inputGen.deliveryMethod = DeliveryMethod.delivery →
        genOrder.deliveryCode.isSome ∧ genOrder.pickupCode = none) ∧
      (∀ c, inputGen.verificationCode = some c → c ≠ "" →
        (inputGen.deliveryMethod = DeliveryMethod.pickup →
          genOrder.pickupCode = some c) ∧
        (inputGen.deliveryMethod = DeliveryMethod.delivery →
          genOrder.deliveryCode = some c)) ∧
      ((inputGen.verificationCode = none ∨ inputGen.verificationCode = some "") →
        0 ≤ scenarioADeps.rand → scenarioADeps.rand < 1 →
        ∃ n : ℤ, 1000 ≤ n ∧ n ≤ 9999 ∧
          (inputGen.deliveryMethod = DeliveryMethod.pickup →
            genOrder.pickupCode = some ("ATMOS-P-" ++ toString n)) ∧
          (inputGen.deliveryMethod = DeliveryMethod.delivery →
            genOrder.deliveryCode = some ("ATMOS-D-" ++ toString n)))) := by
  have hrun : createOrder scenarioADeps scenarioAProd scenarioAProt inputGen
      = Except.ok genOrder := by
    simp only [createOrder, buildItems, scenarioADeps, scenarioAProd, scenarioAProt,
      inputGen, scenarioAInput, genOrder, scenarioAOrder, orderDeliveryFee,
      verificationCodes, genCodeNum]
    norm_num [List.filterMap_cons, List.filterMap_nil, scenarioAProt]
    decide
  exact ⟨hrun, rfl, rfl,
    createOrder_verification_code scenarioADeps scenarioAProd scenarioAProt inputGen
      genOrder hrun⟩

/-- C10: for a delivery order whose distance is absent or zero, the fee is 0 and the
fee calculator is never invoked (the result does not depend on the fee function at
all), so `totalAmount` is the item subtotal alone; the fee is applied exactly when the
method is delivery and the distance is present and non-zero. -/
theorem createOrder_falsy_distance_no_fee (deps : OrderDeps) (feeFn2 : ℚ → ℚ)
    (prod : String → Option Product) (prot : String → Option Protein)
    (input : CreateOrderInput)
    (hm : input.deliveryMethod = DeliveryMethod.delivery) :
    ((input.deliveryDistance = none ∨ input.deliveryDistance = some 0) →
      orderDeliveryFee deps input = 0 ∧
      createOrder deps prod prot input
        = createOrder { deps with feeFn := feeFn2 } prod prot input ∧
      ∀ order, createOrder deps prod prot input = Except.ok order →
        order.totalAmount
          = (order.items.map fun it => it.price * (it.quantity : ℚ)).sum) ∧
    (∀ d : ℚ, input.deliveryDistance = some d → d ≠ 0 →
      orderDeliveryFee deps input = deps.feeFn d) := by
  constructor
  · intro hd
    have h1 : orderDeliveryFee deps input = 0 := by
      rcases hd with hd | hd <;> simp [orderDeliveryFee, hm, hd]
    have h2 : orderDeliveryFee { deps with feeFn := feeFn2 } input = 0 := by
      rcases hd with hd | hd <;> simp [orderDeliveryFee, hm, hd]
    refine ⟨h1, ?_, ?_⟩
    · simp only [createOrder, h1, h2]
    · intro order h
      unfold createOrder at h
      by_cases he : input.items.isEmpty
      · rw [if_pos he] at h
        exact absurd h (by simp)
      · rw [if_neg he] at h
        cases hb : buildItems prod prot input.items with
        | error e => rw [hb] at h; exact absurd h (by simp)
        | ok pr =>
          obtain ⟨lst, subtotal⟩ := pr
          rw [hb] at h
          simp only [Except.ok.injEq] at h
          subst h
          have hT := (buildItems_ok prod prot input.items lst subtotal hb).1
          simpa [h1] using hT
  · intro d hd hdz
    simp [orderDeliveryFee, hm, hd, hdz]

/-- Witness for C10: distance-0 delivery (`inputDist0`) carries no fee and an arbitrary
replacement fee function changes nothing, while distance-5 delivery (`inputDist5`) is
billed `calculateFeeFromDistance 5 = 1000`. -/
theorem createOrder_falsy_distance_no_fee_witness :
    inputDist0.deliveryMethod = DeliveryMethod.delivery ∧
    inputDist5.deliveryMethod = DeliveryMethod.delivery ∧
    (inputDist0.deliveryDistance = none ∨ inputDist0.deliveryDistance = some 0) ∧
    (orderDeliveryFee scenarioADeps inputDist0 = 0 ∧
      createOrder scenarioADeps scenarioAProd scenarioAProt inputDist0
        = createOrder { scenarioADeps with feeFn := fun _ => 987654 } scenarioAProd
            scenarioAProt inputDist0 ∧
      ∀ order, createOrder scenarioADeps scenarioAProd scenarioAProt inputDist0
          = Except.ok order →
        order.totalAmount
          = (order.items.map fun it => it.price * (it.quantity : ℚ)).sum) ∧
    orderDeliveryFee scenarioADeps inputDist5 = scenarioADeps.feeFn 5 ∧
    scenarioADeps.feeFn 5 = 1000 := by
  refine ⟨rfl, rfl, Or.inr rfl,
    (createOrder_falsy_distance_no_fee scenarioADeps (fun _ => 987654) scenarioAProd
      scenarioAProt inputDist0 rfl).1 (Or.inr rfl),
    (createOrder_falsy_distance_no_fee scenarioADeps (fun _ => 987654) scenarioAProd
      scenarioAProt inputDist5 rfl).2 5 rfl (by norm_num), ?_⟩
  show calculateFeeFromDistance 5 = 1000
  norm_num [calculateFeeFromDistance, PRICING]

end Atmos
